import Mathlib

/-!
Verification development for the contact-book program (src/BOT.py).

The Python source is shallowly embedded: the `Phone` / `Birthday` field
validators, the `Record` and `AddressBook` operations, the
`get_upcoming_birthdays` query and the command handlers wrapped by the
`input_error` decorator are translated into executable Lean definitions.
Python `date` values are modelled as (year, month, day) triples of naturals
with proleptic-Gregorian ordinal arithmetic, exactly as CPython's
`datetime.date` implements them; strings are modelled as Lean strings over
their character lists.  Python's Unicode digit classes are embedded from
CPython's own `unicodedata` tables: the `Nd` decimal-digit ranges (the class
`\d` matches and `int()` converts) and the extra digit-type codepoints that
`str.isdigit` additionally accepts.  Fallible Python code (raising
`ValueError`) is modelled with `Except String` / `Option`.
-/

set_option maxRecDepth 10000

namespace BotSpec

/-- ASCII digit test, for the literal character classes (`[12]`, `[0-1]`,
`[1-9]`, `[0-2]`) appearing in `_strptime`'s regex alternations. -/
def asciiDigit (c : Char) : Bool := decide (48 ≤ c.toNat ∧ c.toNat ≤ 57)

/-- Start codepoints of the Unicode `Nd` (decimal digit) ranges, taken from
CPython's `unicodedata` tables: every `Nd` range is ten consecutive
codepoints whose decimal values are 0..9 in order. -/
def ndRangeStarts : List Nat :=
  [48, 1632, 1776, 1984, 2406, 2534, 2662, 2790, 2918, 3046, 3174, 3302,
   3430, 3558, 3664, 3792, 3872, 4160, 4240, 6112, 6160, 6470, 6608, 6784,
   6800, 6992, 7088, 7232, 7248, 42528, 43216, 43264, 43472, 43504, 43600,
   44016, 65296, 66720, 68912, 69734, 69872, 69942, 70096, 70384, 70736,
   70864, 71248, 71360, 71472, 71904, 72016, 72784, 73040, 73120, 92768,
   92864, 93008, 120782, 120792, 120802, 120812, 120822, 123200, 123632,
   125264, 130032]

/-- Decimal value of a Unicode decimal digit (category `Nd`), `none` for
any other character.  This is exactly the class the regex `\d` matches in
CPython's `re` on strings, and the per-character value `int()` uses. -/
def decDigitVal (c : Char) : Option Nat :=
  ndRangeStarts.findSome? fun s =>
    if s ≤ c.toNat ∧ c.toNat ≤ s + 9 then some (c.toNat - s) else none

/-- Codepoints accepted by Python's `str.isdigit` beyond the `Nd` ranges
(characters of Numeric_Type `Digit`, e.g. superscript digits), from
CPython's `unicodedata` tables.  `int()` fails on every one of them. -/
def digitExtraCodes : List Nat :=
  [178, 179, 185, 4969, 4970, 4971, 4972, 4973, 4974, 4975, 4976, 4977,
   6618, 8304, 8308, 8309, 8310, 8311, 8312, 8313, 8320, 8321, 8322, 8323,
   8324, 8325, 8326, 8327, 8328, 8329, 9312, 9313, 9314, 9315, 9316, 9317,
   9318, 9319, 9320, 9332, 9333, 9334, 9335, 9336, 9337, 9338, 9339, 9340,
   9352, 9353, 9354, 9355, 9356, 9357, 9358, 9359, 9360, 9450, 9461, 9462,
   9463, 9464, 9465, 9466, 9467, 9468, 9469, 9471, 10102, 10103, 10104,
   10105, 10106, 10107, 10108, 10109, 10110, 10112, 10113, 10114, 10115,
   10116, 10117, 10118, 10119, 10120, 10122, 10123, 10124, 10125, 10126,
   10127, 10128, 10129, 10130, 68160, 68161, 68162, 68163, 69216, 69217,
   69218, 69219, 69220, 69221, 69222, 69223, 69224, 69714, 69715, 69716,
   69717, 69718, 69719, 69720, 69721, 69722, 127232, 127233, 127234,
   127235, 127236, 127237, 127238, 127239, 127240, 127241, 127242]

/-- One character of Python's `str.isdigit`: a Unicode decimal digit or a
digit-type character such as a superscript digit. -/
def pyIsdigitChar (c : Char) : Bool :=
  (decDigitVal c).isSome || digitExtraCodes.contains c.toNat

/-- `int()` on a run of matched digit characters: positional base-10 value
when every character is a Unicode decimal digit, failure otherwise. -/
def tokDecValGo : Nat → List Char → Option Nat
  | acc, [] => some acc
  | acc, c :: t =>
    match decDigitVal c with
    | some b => tokDecValGo (10 * acc + b) t
    | none => none

/-- `int()` conversion of a whole field. -/
def tokDecVal (l : List Char) : Option Nat := tokDecValGo 0 l

/-- Gregorian leap-year rule, as in CPython `calendar.isleap`. -/
def isLeap (y : Nat) : Bool := y % 4 == 0 && (y % 100 != 0 || y % 400 == 0)

/-- Days in a month (month 1..12; 0 for an out-of-range month). -/
def daysInMonth (y m : Nat) : Nat :=
  if m = 2 then (if isLeap y then 29 else 28)
  else if m = 4 ∨ m = 6 ∨ m = 9 ∨ m = 11 then 30
  else if 1 ≤ m ∧ m ≤ 12 then 31
  else 0

/-- Days in a year. -/
def daysInYear (y : Nat) : Nat := if isLeap y then 366 else 365

/-- Days in year `y` strictly before month `m`. -/
def daysBeforeMonth (y : Nat) : Nat → Nat
  | 0 => 0
  | 1 => 0
  | m + 2 => daysBeforeMonth y (m + 1) + daysInMonth y (m + 1)

/-- Days before January 1 of year `y` in the proleptic Gregorian calendar
(CPython `datetime._days_before_year`). -/
def daysBeforeYear (y : Nat) : Nat :=
  365 * (y - 1) + (y - 1) / 4 - (y - 1) / 100 + (y - 1) / 400

/-- A Python `datetime.date`: a (year, month, day) triple.  Valid dates have
`1 ≤ m ≤ 12`, `1 ≤ d ≤ daysInMonth y m`, `1 ≤ y ≤ 9999`. -/
structure PyDate where
  y : Nat
  m : Nat
  d : Nat
deriving DecidableEq, Repr

/-- `date.toordinal()`: day number with 0001-01-01 as day 1. -/
def toOrdinal (dt : PyDate) : Nat :=
  daysBeforeYear dt.y + daysBeforeMonth dt.y dt.m + dt.d

/-- Python `date` comparison (field-lexicographic, as `date.__lt__`). -/
def dateLt (a b : PyDate) : Bool :=
  a.y < b.y || (a.y == b.y && (a.m < b.m || (a.m == b.m && a.d < b.d)))

/-- Weekday of an ordinal, Monday = 0 (CPython: `(toordinal + 6) % 7`). -/
def wdOfOrd (n : Nat) : Nat := (n + 6) % 7

/-- `date.weekday()`: Monday = 0 .. Sunday = 6. -/
def weekday (dt : PyDate) : Nat := wdOfOrd (toOrdinal dt)

/-- Month/day of a given day-of-year (`n` counted from 1), by walking the
months as CPython `_ord2ymd` does.  The first argument is fuel (12 months). -/
def ofYearDayGo (y : Nat) : Nat → Nat → Nat → PyDate
  | 0, m, n => ⟨y, m, n⟩
  | fuel + 1, m, n =>
      if n ≤ daysInMonth y m then ⟨y, m, n⟩
      else ofYearDayGo y fuel (m + 1) (n - daysInMonth y m)

/-- Date of day-of-year `n` (from 1) in year `y`. -/
def ofYearDay (y n : Nat) : PyDate := ofYearDayGo y 12 1 n

/-- Locate the year containing ordinal `n`, peeling whole years; the first
argument is fuel (enough for years up to 9999). -/
def fromOrdGo : Nat → Nat → Nat → PyDate
  | 0, y, n => ⟨y, 1, n⟩
  | fuel + 1, y, n =>
      if n ≤ daysInYear y then ofYearDay y n
      else fromOrdGo fuel (y + 1) (n - daysInYear y)

/-- `date.fromordinal`: inverse of `toOrdinal` on valid ordinals. -/
def fromOrdinal (n : Nat) : PyDate := fromOrdGo 9999 1 n

/-- `date + timedelta(days = k)`: ordinal arithmetic, as CPython does. -/
def pyAddDays (dt : PyDate) (k : Nat) : PyDate := fromOrdinal (toOrdinal dt + k)

/-- Two-digit zero-padded rendering (strftime `%d` / `%m`). -/
def pad2 (n : Nat) : String := if n < 10 then "0" ++ toString n else toString n

/-- `date.strftime("%d.%m.%Y")` (glibc `%Y` prints the year unpadded). -/
def formatDate (dt : PyDate) : String :=
  pad2 dt.d ++ "." ++ pad2 dt.m ++ "." ++ toString dt.y

/-!
### strptime "%d.%m.%Y"

CPython's `_strptime` compiles `%d` to the ordered alternation
`3[01]|[12]\d|0[1-9]|[1-9]`, `%m` to `1[0-2]|0[1-9]|[1-9]` and `%Y` to
`\d\d\d\d`, with the literal dots in between, matches the whole input
(rejecting when unconverted characters remain), and converts each matched
group with `int()`.  The bracketed classes are ASCII literals; `\d` matches
exactly the Unicode `Nd` category (verified against CPython's `re`), so a
day like `1٣` (ASCII one, Arabic-Indic three) matches and converts to 13,
while `٢٢` or `1²` do not yield a date.  `parseDay`/`parseMonth` realize
the alternation deterministically: committing to a two-character
alternative is safe, because its second character is then a digit-class
character, never the literal `.` the one-character alternative would need
next. -/

/-- The `%d` field (`3[01]|[12]\d|0[1-9]|[1-9]`, `\d` being any Unicode
decimal digit), with `int()` applied to the matched group. -/
def parseDay : List Char → Option (Nat × List Char)
  | [] => none
  | [c1] => if asciiDigit c1 ∧ c1 ≠ '0' then some (c1.toNat - 48, []) else none
  | c1 :: c2 :: rest2 =>
    if c1 = '3' ∧ (c2 = '0' ∨ c2 = '1') then some (30 + (c2.toNat - 48), rest2)
    else if (c1 = '1' ∨ c1 = '2') ∧ (decDigitVal c2).isSome then
      some (10 * (c1.toNat - 48) + (decDigitVal c2).getD 0, rest2)
    else if c1 = '0' ∧ asciiDigit c2 ∧ c2 ≠ '0' then some (c2.toNat - 48, rest2)
    else if asciiDigit c1 ∧ c1 ≠ '0' then some (c1.toNat - 48, c2 :: rest2)
    else none

/-- The `%m` field (`1[0-2]|0[1-9]|[1-9]`, all ASCII classes). -/
def parseMonth : List Char → Option (Nat × List Char)
  | [] => none
  | [c1] => if asciiDigit c1 ∧ c1 ≠ '0' then some (c1.toNat - 48, []) else none
  | c1 :: c2 :: rest2 =>
    if c1 = '1' ∧ (c2 = '0' ∨ c2 = '1' ∨ c2 = '2') then
      some (10 + (c2.toNat - 48), rest2)
    else if c1 = '0' ∧ asciiDigit c2 ∧ c2 ≠ '0' then some (c2.toNat - 48, rest2)
    else if asciiDigit c1 ∧ c1 ≠ '0' then some (c1.toNat - 48, c2 :: rest2)
    else none

/-- The literal `.` separator of the format string. -/
def expectDot : List Char → Option (List Char)
  | c :: rest => if c = '.' then some rest else none
  | [] => none

/-- The `%Y` field: four `\d` characters converted by `int()` — four
Unicode decimal digits (when a matched digit-type character is not a
decimal digit, `int()` raises the same `ValueError` a failed match does). -/
def parseYear4 : List Char → Option (Nat × List Char)
  | c1 :: c2 :: c3 :: c4 :: rest =>
    match tokDecVal [c1, c2, c3, c4] with
    | some v => some (v, rest)
    | none => none
  | _ => none

/-- Full match of `"%d.%m.%Y"` against the whole character list (the final
empty-remainder test is strptime's unconverted-data check). -/
def parseDMY (cs : List Char) : Option (Nat × Nat × Nat) :=
  match parseDay cs with
  | none => none
  | some (d, r1) =>
    match expectDot r1 with
    | none => none
    | some r2 =>
      match parseMonth r2 with
      | none => none
      | some (m, r3) =>
        match expectDot r3 with
        | none => none
        | some r4 =>
          match parseYear4 r4 with
          | none => none
          | some (yr, r5) => if r5 = [] then some (d, m, yr) else none

/-- `datetime.strptime(s, "%d.%m.%Y").date()`: the format match followed by
the `datetime` constructor's range checks (year 1..9999, real day of month;
the parser already guarantees month 1..12 and day ≥ 1). -/
def pyStrptime (s : String) : Option PyDate :=
  match parseDMY s.data with
  | some (d, m, yr) =>
      if 1 ≤ yr ∧ d ≤ daysInMonth yr m then some ⟨yr, m, d⟩ else none
  | none => none

/-!
### Field validators (`Phone.__init__`, `Birthday.__init__`)
-/

/-- Python `str.isdigit`: nonempty and every character a digit character
(Unicode decimal digits of any script, plus digit-type characters such as
superscript digits). -/
def pyIsdigit (s : String) : Bool := !s.data.isEmpty && s.data.all pyIsdigitChar

/-- Python `len` on a string. -/
def pyLen (s : String) : Nat := s.data.length

/-- `Phone.__init__`: raises unless the value is all digits of length 10;
on success the stored value (and its rendering) is the input itself. -/
def validatePhone (s : String) : Except String String :=
  if !pyIsdigit s || pyLen s != 10 then .error "Phone number must be 10 digits."
  else .ok s

/-- `Birthday.__init__`: accepts exactly the strings `strptime` parses as a
real date; the stored value is the raw input string. -/
def validateDate (s : String) : Except String String :=
  match pyStrptime s with
  | some _ => .ok s
  | none => .error "Invalid date format. Use DD.MM.YYYY"

/-!
### Spec-side characterization of the accepted date strings

An independent description of the strings `Birthday` accepts, phrased by
decomposing the string at its dots rather than by the sequential scan of
the format string: exactly three fields; a day field that is a nonzero
ASCII digit, `30`/`31`, an ASCII `1` or `2` followed by any Unicode decimal
digit, or an ASCII `0` followed by a nonzero ASCII digit; a month field
that is a nonzero ASCII digit, ASCII `10`–`12`, or ASCII `01`–`09`; a
four-character year field of Unicode decimal digits with value ≥ 1; and a
day that exists in that month of that year.
-/

/-- A `Record`: name, list of phone values (the `.value` strings of the
`Phone` objects), plain email string, optional birthday value string. -/
structure Record where
  name : String
  phones : List String
  email : String
  birthday : Option String
deriving DecidableEq, Repr

/-- `Record.__init__(name, phone, email)`: validates and appends the phone
when one is given (`if phone:`), propagating the `ValueError`. -/
def recordNew (name phone email : String) : Except String Record :=
  if phone ≠ "" then
    (validatePhone phone).map fun v => ⟨name, [v], email, none⟩
  else .ok ⟨name, [], email, none⟩

/-- `Record.add_phone`: validate, then append. -/
def addPhone (r : Record) (p : String) : Except String Record :=
  (validatePhone p).map fun v => { r with phones := r.phones ++ [v] }

/-- `Record.remove_phone`: keep the phones whose value differs. -/
def removePhone (r : Record) (p : String) : Record :=
  { r with phones := r.phones.filter (fun q => q ≠ p) }

/-- The loop of `Record.edit_phone`: overwrite the first entry equal to
`old` with the raw string `new` (no validation), `none` when absent. -/
def editPhoneList : List String → String → String → Option (List String)
  | [], _, _ => none
  | p :: t, old, new =>
      if p = old then some (new :: t)
      else (editPhoneList t old new).map (p :: ·)

/-- `Record.edit_phone`: first match replaced in place by the raw new
string; raises when no phone equals `old`. -/
def editPhone (r : Record) (old new : String) : Except String Record :=
  match editPhoneList r.phones old new with
  | some l => .ok { r with phones := l }
  | none => .error "Phone number not found."

/-- `Record.find_phone`: first phone with the given value. -/
def findPhone (r : Record) (p : String) : Option String :=
  r.phones.find? (fun q => q = p)

/-- `Record.add_birthday`: validate, then overwrite the birthday slot. -/
def addBirthdayR (r : Record) (s : String) : Except String Record :=
  (validateDate s).map fun v => { r with birthday := some v }

/-- The `AddressBook` dict, as an association list in insertion order. -/
abbrev Book := List (String × Record)

/-- `dict.get(name)`. -/
def dictFind : Book → String → Option Record
  | [], _ => none
  | (k, v) :: t, name => if k = name then some v else dictFind t name

/-- `self.data[key] = record`: replace in place when the key exists
(Python dicts keep the original position), else append. -/
def dictInsert : Book → String → Record → Book
  | [], k, v => [(k, v)]
  | (k', v') :: t, k, v =>
      if k' = k then (k, v) :: t else (k', v') :: dictInsert t k v

/-- `AddressBook.delete`: drop the entry under the key when present. -/
def dictDelete (b : Book) (name : String) : Book :=
  b.filter (fun kv => kv.1 ≠ name)

/-- `AddressBook.add_record`: store under the record's own name. -/
def addRecord (b : Book) (r : Record) : Book := dictInsert b r.name r

/-!
### The upcoming-birthday query (`AddressBook.get_upcoming_birthdays`)
-/

/-- One emitted entry: the contact's name and the reported date string. -/
structure UpEntry where
  name : String
  birthday : String
deriving DecidableEq, Repr

/-- `date.replace(year = y')`: rebuild the date with the new year, raising
the constructor's `ValueError` when the (day, month) does not exist in that
year (e.g. Feb 29 in a non-leap year) or the year is out of 1..9999. -/
def replaceYear (y' : Nat) (dt : PyDate) : Except String PyDate :=
  if 1 ≤ y' ∧ y' ≤ 9999 ∧ 1 ≤ dt.m ∧ dt.m ≤ 12 ∧ 1 ≤ dt.d ∧ dt.d ≤ daysInMonth y' dt.m
  then .ok ⟨y', dt.m, dt.d⟩
  else .error "day is out of range for month"

/-- Lines 111–114 of the source: this year's candidate, rolled to next year
when it is strictly before today. -/
def computeCandidate (today bd : PyDate) : Except String PyDate := do
  let c0 ← replaceYear today.y bd
  if dateLt c0 today then replaceYear (today.y + 1) bd else .ok c0

/-- `(birthday_this_year - today).days` as an integer day count. -/
def daysUntil (today cand : PyDate) : Int :=
  (toOrdinal cand : Int) - (toOrdinal today : Int)

/-- The loop body of `get_upcoming_birthdays` for one record: `ok none`
when the record is skipped, `ok (some entry)` when it is reported, `error`
when `strptime` or `date.replace` raises. -/
def processRecord (today : PyDate) (r : Record) : Except String (Option UpEntry) :=
  match r.birthday with
  | none => .ok none
  | some s =>
    match pyStrptime s with
    | none => .error ("time data " ++ s ++ " does not match format %d.%m.%Y")
    | some bd => do
      let cand ← computeCandidate today bd
      let du := daysUntil today cand
      if 0 ≤ du ∧ du ≤ 7 then
        let wd := weekday cand
        let eff := if 5 ≤ wd then pyAddDays cand (7 - wd) else cand
        .ok (some ⟨r.name, formatDate eff⟩)
      else .ok none

/-- The loop over the records, accumulating entries in iteration order; an
exception in the body escapes and discards the whole list. -/
def runUpcoming (today : PyDate) : List Record → Except String (List UpEntry)
  | [] => .ok []
  | r :: t => do
    let o ← processRecord today r
    let rest ← runUpcoming today t
    match o with
    | some e => .ok (e :: rest)
    | none => .ok rest

/-- `AddressBook.get_upcoming_birthdays`, with `today` a parameter in place
of `datetime.today().date()`. -/
def getUpcomingBirthdays (today : PyDate) (b : Book) : Except String (List UpEntry) :=
  runUpcoming today (b.map Prod.snd)

/-!
### Command handlers, wrapped by the `input_error` decorator

Each handler returns the message printed to the user and the resulting book
(in Python the mutation is in place; here the updated record is written back
under its key).  Unpacking a too-short argument list raises `ValueError`,
whose text the decorator's `except ValueError` branch returns verbatim; the
decorator's `except IndexError` branch returns the generic message below,
reachable only from handlers that index into `args`.
-/

/-- The `input_error` decorator's `IndexError` message. -/
def genericArgsMsg : String := "Please provide all necessary arguments."

/-- Python's unpack error text for `a, b, *rest = args` with too few items. -/
def unpackAtLeastMsg (expected got : Nat) : String :=
  "not enough values to unpack (expected at least " ++ toString expected ++
    ", got " ++ toString got ++ ")"

/-- Python's unpack error text for `a, b, c = args` with too few items. -/
def unpackExactMsg (expected got : Nat) : String :=
  "not enough values to unpack (expected " ++ toString expected ++ ", got " ++
    toString got ++ ")"

/-- `add_contact(args, book)` under `input_error`. -/
def addContact (args : List String) (b : Book) : String × Book :=
  match args with
  | name :: phone :: rest =>
    let email := rest.headD ""
    match dictFind b name with
    | none =>
      match recordNew name phone email with
      | .ok r => ("Contact added.", addRecord b r)
      | .error e => (e, b)
    | some r =>
      if phone ≠ "" then
        match addPhone r phone with
        | .ok r1 =>
            let r2 := if email ≠ "" then { r1 with email := email } else r1
            ("Contact updated.", dictInsert b name r2)
        | .error e => (e, b)
      else
        let r2 := if email ≠ "" then { r with email := email } else r
        ("Contact updated.", dictInsert b name r2)
  | _ => (unpackAtLeastMsg 2 args.length, b)

/-- `change_contact(args, book)` under `input_error`. -/
def changeContact (args : List String) (b : Book) : String × Book :=
  match args with
  | [name, oldP, newP] =>
    match dictFind b name with
    | some r =>
      match editPhone r oldP newP with
      | .ok r1 => ("Contact updated.", dictInsert b name r1)
      | .error e => (e, b)
    | none => ("Contact " ++ name ++ " not found.", b)
  | _ =>
    if args.length < 3 then (unpackExactMsg 3 args.length, b)
    else ("too many values to unpack (expected 3)", b)

/-- `add_birthday(args, book)` under `input_error`. -/
def addBirthdayCmd (args : List String) (b : Book) : String × Book :=
  match args with
  | [name, bday] =>
    match dictFind b name with
    | some r =>
      match addBirthdayR r bday with
      | .ok r1 => ("Birthday added for " ++ name ++ ".", dictInsert b name r1)
      | .error e => (e, b)
    | none => ("Contact " ++ name ++ " not found.", b)
  | _ =>
    if args.length < 2 then (unpackExactMsg 2 args.length, b)
    else ("too many values to unpack (expected 2)", b)

/-- `show_phone(args, book)` under `input_error`: `args[0]` raises
`IndexError` on an empty list, yielding the generic message. -/
def showPhone (args : List String) (b : Book) : String :=
  match args with
  | [] => genericArgsMsg
  | name :: _ =>
    match dictFind b name with
    | some r =>
      if r.phones ≠ [] then
        name ++ ": " ++ String.intercalate ", " r.phones
      else "No phone found for " ++ name ++ "."
    | none => "No phone found for " ++ name ++ "."

/-!
## Lemmas about the dictionary operations
-/

theorem dictFind_dictInsert (b : Book) (k : String) (v : Record) :
    dictFind (dictInsert b k v) k = some v := by
  induction b with
  | nil => simp [dictInsert, dictFind]
  | cons hd t ih =>
    obtain ⟨k', v'⟩ := hd
    by_cases h : k' = k
    · simp [dictInsert, dictFind, h]
    · simp [dictInsert, dictFind, h, ih]

theorem dictFind_dictDelete_self (b : Book) (name : String) :
    dictFind (dictDelete b name) name = none := by
  induction b with
  | nil => simp [dictDelete, dictFind]
  | cons hd t ih =>
    obtain ⟨k, v⟩ := hd
    by_cases h : k = name
    · simpa [dictDelete, h] using ih
    · simpa [dictDelete, dictFind, h] using ih

theorem dictDelete_dictDelete (b : Book) (name : String) :
    dictDelete (dictDelete b name) name = dictDelete b name := by
  induction b with
  | nil => rfl
  | cons hd t ih =>
    obtain ⟨k, v⟩ := hd
    by_cases h : k = name
    · simp only [dictDelete, List.filter] at ih ⊢
      simp [h, ih]
    · simp only [dictDelete, List.filter] at ih ⊢
      simp [h, ih]

/-!
## Lemmas about `edit_phone`
-/

theorem editPhoneList_of_not_mem {l : List String} {old : String}
    (h : old ∉ l) (new : String) : editPhoneList l old new = none := by
  induction l with
  | nil => rfl
  | cons p t ih =>
    have hp : p ≠ old := fun hpe => h (hpe ▸ List.mem_cons_self p t)
    have ht : old ∉ t := fun m => h (List.mem_cons_of_mem _ m)
    simp [editPhoneList, hp, ih ht]

theorem editPhoneList_first_match (pre post : List String) (old new : String)
    (h : old ∉ pre) :
    editPhoneList (pre ++ old :: post) old new = some (pre ++ new :: post) := by
  induction pre with
  | nil => simp [editPhoneList]
  | cons p t ih =>
    have hp : p ≠ old := fun hpe => h (hpe ▸ List.mem_cons_self p t)
    have ht : old ∉ t := fun m => h (List.mem_cons_of_mem _ m)
    simp [editPhoneList, hp, ih ht]

/-!
## Claim theorems: record and book operations
-/

/-- C7: adding two records with the same name in sequence leaves exactly the
second record stored under that name — `add_record` replaces wholesale, so no
phone, email or birthday of the first record survives. -/
theorem add_record_replaces_wholesale (b : Book) (r1 r2 : Record)
    (h : r1.name = r2.name) :
    dictFind (addRecord (addRecord b r1) r2) r1.name = some r2 := by
  unfold addRecord
  rw [h]
  exact dictFind_dictInsert _ _ _

theorem add_record_replaces_wholesale_witness :
    dictFind
      (addRecord (addRecord []
        ⟨"A", ["1111111111"], "a@x", some "01.01.2000"⟩)
        ⟨"A", [], "", none⟩) "A"
      = some ⟨"A", [], "", none⟩ :=
  add_record_replaces_wholesale []
    ⟨"A", ["1111111111"], "a@x", some "01.01.2000"⟩ ⟨"A", [], "", none⟩ rfl

/-- C8: `delete` is idempotent: after one delete the name is absent, and a
second delete returns the book unchanged (no error) with the name still
absent. -/
theorem delete_idempotent (b : Book) (name : String) :
    dictFind (dictDelete b name) name = none ∧
    dictDelete (dictDelete b name) name = dictDelete b name ∧
    dictFind (dictDelete (dictDelete b name) name) name = none := by
  refine ⟨dictFind_dictDelete_self b name, dictDelete_dictDelete b name, ?_⟩
  rw [dictDelete_dictDelete]
  exact dictFind_dictDelete_self b name

/-- C3 counterexample: on a record holding `"1111111111"`, editing that
phone to the non-phone string `"abc"` succeeds and stores `"abc"` raw —
`edit_phone` assigns `phone.value = new_phone` without constructing a
`Phone`, so the claimed validation of the new value does not happen. -/
theorem edit_phone_unvalidated_cex :
    editPhone ⟨"A", ["1111111111"], "", none⟩ "1111111111" "abc"
      = .ok ⟨"A", ["abc"], "", none⟩ ∧
    validatePhone "abc" = .error "Phone number must be 10 digits." := by
  exact ⟨rfl, rfl⟩

/-- C3 (amended): `edit_phone(old, new)` fails with the not-found error when
no stored phone equals `old`, and otherwise overwrites the first entry equal
to `old` with the raw string `new`, performing no validation of `new`; the
spec's concrete example (editing `"1111111111"` to `"2222222222"` succeeds
and `find_phone` then returns it) holds. -/
theorem edit_phone_first_match_raw (r : Record) (old new : String) :
    (old ∉ r.phones → editPhone r old new = .error "Phone number not found.") ∧
    (∀ pre post, r.phones = pre ++ old :: post → old ∉ pre →
      editPhone r old new = .ok { r with phones := pre ++ new :: post }) ∧
    editPhone ⟨"A", ["1111111111"], "", none⟩ "1111111111" "2222222222"
      = .ok ⟨"A", ["2222222222"], "", none⟩ ∧
    findPhone ⟨"A", ["2222222222"], "", none⟩ "2222222222" = some "2222222222" := by
  refine ⟨?_, ?_, rfl, rfl⟩
  · intro h
    simp [editPhone, editPhoneList_of_not_mem h]
  · intro pre post hsplit hpre
    simp [editPhone, hsplit, editPhoneList_first_match pre post old new hpre]

theorem edit_phone_first_match_raw_witness :
    editPhone ⟨"B", ["3333333333"], "", none⟩ "9999999999" "2222222222"
      = .error "Phone number not found." :=
  (edit_phone_first_match_raw ⟨"B", ["3333333333"], "", none⟩
      "9999999999" "2222222222").1 (by decide)

/-- C4 counterexample: a string of ten superscript-two characters is
accepted by `validate_phone` — Python's `str.isdigit` is true for `'²'`
although it is not an ASCII decimal digit — contradicting the claim that
every input not made of ASCII decimal digits is rejected. -/
theorem validate_phone_unicode_cex :
    validatePhone "²²²²²²²²²²" = .ok "²²²²²²²²²²" ∧
    asciiDigit '²' = false ∧ pyIsdigitChar '²' = true := by
  exact ⟨rfl, rfl, rfl⟩

/-- C4 (amended): `validate_phone` succeeds exactly on strings of length 10
all of whose characters Python's `str.isdigit` accepts — Unicode decimal
digits of any script plus digit-type characters such as superscript digits
(so every string of ten ASCII digits is accepted, but so is e.g.
`"²²²²²²²²²²"`); it fails with the validation error otherwise, and on
success the stored phone renders back to the input string itself. -/
theorem validate_phone_spec (s : String) :
    ((∃ p, validatePhone s = .ok p) ↔
      (pyLen s = 10 ∧ s.data.all pyIsdigitChar = true)) ∧
    (∀ p, validatePhone s = .ok p → p = s) ∧
    (¬(pyLen s = 10 ∧ s.data.all pyIsdigitChar = true) →
      validatePhone s = .error "Phone number must be 10 digits.") := by
  by_cases h : (!pyIsdigit s || pyLen s != 10) = true
  · have herr : validatePhone s = .error "Phone number must be 10 digits." := by
      unfold validatePhone
      rw [if_pos h]
    have hne : ¬(pyLen s = 10 ∧ s.data.all pyIsdigitChar = true) := by
      rintro ⟨h10, hd⟩
      have hlen10 : s.data.length = 10 := h10
      have hne2 : s.data.isEmpty = false := by
        cases hd2 : s.data with
        | nil => rw [hd2] at hlen10; simp at hlen10
        | cons c t => rfl
      have hdig : pyIsdigit s = true := by
        simp [pyIsdigit, hne2, hd]
      rw [hdig, h10] at h
      simp at h
    refine ⟨?_, ?_, fun _ => herr⟩
    · constructor
      · rintro ⟨p, hp⟩
        rw [herr] at hp
        cases hp
      · intro hyp
        exact absurd hyp hne
    · intro p hp
      rw [herr] at hp
      cases hp
  · have hok : validatePhone s = .ok s := by
      unfold validatePhone
      rw [if_neg h]
    have hdig : pyIsdigit s = true := by
      cases hh : pyIsdigit s
      · exfalso
        apply h
        rw [hh]
        rfl
      · rfl
    have h10 : pyLen s = 10 := by
      by_cases hh : pyLen s = 10
      · exact hh
      · exfalso
        apply h
        rw [hdig]
        simp [hh]
    have hall : s.data.all pyIsdigitChar = true := by
      have hh := hdig
      simp only [pyIsdigit, Bool.and_eq_true] at hh
      exact hh.2
    refine ⟨?_, ?_, ?_⟩
    · exact ⟨fun _ => ⟨h10, hall⟩, fun _ => ⟨s, hok⟩⟩
    · intro p hp
      rw [hok] at hp
      cases hp
      rfl
    · intro hyp
      exact absurd ⟨h10, hall⟩ hyp

theorem validate_phone_spec_witness :
    (∃ p, validatePhone "1234567890" = .ok p) ∧
    validatePhone "123456789a" = .error "Phone number must be 10 digits." :=
  ⟨(validate_phone_spec "1234567890").1.mpr ⟨by decide, by decide⟩,
    (validate_phone_spec "123456789a").2.2 (by decide)⟩

/-!
## Lemmas about the upcoming-birthday query
-/

/-- Reduced form of the loop body once the birthday string parses and the
candidate computation succeeds. -/
theorem processRecord_eq (today : PyDate) (r : Record) {s : String}
    {bd cand : PyDate} (hb : r.birthday = some s) (hs : pyStrptime s = some bd)
    (hc : computeCandidate today bd = .ok cand) :
    processRecord today r =
      if 0 ≤ daysUntil today cand ∧ daysUntil today cand ≤ 7 then
        .ok (some ⟨r.name,
          formatDate
            (if 5 ≤ weekday cand then pyAddDays cand (7 - weekday cand)
             else cand)⟩)
      else .ok none := by
  unfold processRecord
  rw [hb]
  simp only [hs, Bind.bind, Except.bind, hc]

/-- An exception raised for any record in the loop escapes the whole query. -/
theorem runUpcoming_error_of_mem {today : PyDate} {l : List Record}
    {r : Record} (hr : r ∈ l) {msg : String}
    (he : processRecord today r = .error msg) :
    ∃ m2, runUpcoming today l = .error m2 := by
  induction l with
  | nil => cases hr
  | cons a t ih =>
    cases hp : processRecord today a with
    | error m =>
      exact ⟨m, by simp [runUpcoming, Bind.bind, Except.bind, hp]⟩
    | ok o =>
      rcases List.mem_cons.mp hr with h1 | h2
      · subst h1
        rw [hp] at he
        cases he
      · obtain ⟨m2, hm2⟩ := ih h2
        exact ⟨m2, by simp [runUpcoming, Bind.bind, Except.bind, hp, hm2]⟩

/-!
## Claim theorems: the upcoming-birthday query
-/

/-- C1: a record with a parsed birthday is included in the query exactly
when the candidate — (day, month) with today's year, rolled to next year
when strictly before today — lies 0 to 7 whole days after today; with today
31.12.2024 and birthday 02.01.2000 the candidate is 02.01.2025 (days_until
= 2) and the record is reported. -/
theorem upcoming_birthdays_window_iff (today : PyDate) (r : Record)
    (s : String) (bd cand : PyDate) (hb : r.birthday = some s)
    (hs : pyStrptime s = some bd)
    (hc : computeCandidate today bd = .ok cand) :
    ((∃ e, processRecord today r = .ok (some e)) ↔
      (0 ≤ daysUntil today cand ∧ daysUntil today cand ≤ 7)) ∧
    getUpcomingBirthdays ⟨2024, 12, 31⟩
        [("Bob", ⟨"Bob", [], "", some "02.01.2000"⟩)]
      = .ok [⟨"Bob", "02.01.2025"⟩] ∧
    computeCandidate ⟨2024, 12, 31⟩ ⟨2000, 1, 2⟩ = .ok ⟨2025, 1, 2⟩ ∧
    daysUntil ⟨2024, 12, 31⟩ ⟨2025, 1, 2⟩ = 2 := by
  refine ⟨?_, by rfl, by rfl, by decide⟩
  rw [processRecord_eq today r hb hs hc]
  by_cases hw : 0 ≤ daysUntil today cand ∧ daysUntil today cand ≤ 7
  · simp [hw]
  · simp [hw]

theorem upcoming_birthdays_window_iff_witness :
    (∃ e, processRecord ⟨2024, 12, 31⟩ ⟨"Bob", [], "", some "02.01.2000"⟩
        = .ok (some e)) ↔
      (0 ≤ daysUntil ⟨2024, 12, 31⟩ ⟨2025, 1, 2⟩ ∧
        daysUntil ⟨2024, 12, 31⟩ ⟨2025, 1, 2⟩ ≤ 7) :=
  (upcoming_birthdays_window_iff ⟨2024, 12, 31⟩
    ⟨"Bob", [], "", some "02.01.2000"⟩ "02.01.2000" ⟨2000, 1, 2⟩
    ⟨2025, 1, 2⟩ rfl (by rfl) (by rfl)).1

/-- C2: for a qualifying record, when the candidate falls on Saturday or
Sunday (weekday index 5 or 6) the reported date is the candidate shifted by
`7 - weekday` days, which lands on a Monday; otherwise the candidate itself
is reported; qualification is decided on the unshifted candidate's 0–7 day
window.  Spec example: today 10.06.2024, birthday 15.06.2024 (Saturday) is
reported as 17.06.2024 (Monday). -/
theorem upcoming_weekend_shift (today : PyDate) (r : Record) (s : String)
    (bd cand : PyDate) (e : UpEntry) (hb : r.birthday = some s)
    (hs : pyStrptime s = some bd)
    (hc : computeCandidate today bd = .ok cand)
    (he : processRecord today r = .ok (some e)) :
    (0 ≤ daysUntil today cand ∧ daysUntil today cand ≤ 7) ∧
    (5 ≤ weekday cand →
      e.birthday = formatDate (pyAddDays cand (7 - weekday cand)) ∧
      wdOfOrd (toOrdinal cand + (7 - weekday cand)) = 0) ∧
    (weekday cand < 5 → e.birthday = formatDate cand) ∧
    getUpcomingBirthdays ⟨2024, 6, 10⟩
        [("Ann", ⟨"Ann", [], "", some "15.06.2024"⟩)]
      = .ok [⟨"Ann", "17.06.2024"⟩] ∧
    weekday ⟨2024, 6, 15⟩ = 5 ∧ weekday ⟨2024, 6, 17⟩ = 0 := by
  rw [processRecord_eq today r hb hs hc] at he
  by_cases hw : 0 ≤ daysUntil today cand ∧ daysUntil today cand ≤ 7
  · rw [if_pos hw] at he
    have he2 : e = ⟨r.name,
        formatDate (if 5 ≤ weekday cand then pyAddDays cand (7 - weekday cand)
          else cand)⟩ := by
      cases he
      rfl
    refine ⟨hw, ?_, ?_, by rfl, by rfl, by rfl⟩
    · intro hwk
      constructor
      · rw [he2]
        simp [hwk]
      · have hlt : wdOfOrd (toOrdinal cand) < 7 := by
          unfold wdOfOrd
          omega
        have hwk2 : 5 ≤ wdOfOrd (toOrdinal cand) := hwk
        unfold wdOfOrd at hwk2 hlt ⊢
        unfold weekday wdOfOrd
        omega
    · intro hwk
      rw [he2]
      have : ¬(5 ≤ weekday cand) := by omega
      simp [this]
  · rw [if_neg hw] at he
    cases he
theorem upcoming_weekend_shift_witness :
    (0 ≤ daysUntil ⟨2024, 6, 10⟩ ⟨2024, 6, 15⟩ ∧
      daysUntil ⟨2024, 6, 10⟩ ⟨2024, 6, 15⟩ ≤ 7) ∧
    (5 ≤ weekday ⟨2024, 6, 15⟩ →
      "17.06.2024"
          = formatDate (pyAddDays ⟨2024, 6, 15⟩ (7 - weekday ⟨2024, 6, 15⟩)) ∧
      wdOfOrd (toOrdinal ⟨2024, 6, 15⟩ + (7 - weekday ⟨2024, 6, 15⟩)) = 0) ∧
    (weekday ⟨2024, 6, 15⟩ < 5 → "17.06.2024" = formatDate ⟨2024, 6, 15⟩) ∧
    getUpcomingBirthdays ⟨2024, 6, 10⟩
        [("Ann", ⟨"Ann", [], "", some "15.06.2024"⟩)]
      = .ok [⟨"Ann", "17.06.2024"⟩] ∧
    weekday ⟨2024, 6, 15⟩ = 5 ∧ weekday ⟨2024, 6, 17⟩ = 0 :=
  upcoming_weekend_shift ⟨2024, 6, 10⟩ ⟨"Ann", [], "", some "15.06.2024"⟩
    "15.06.2024" ⟨2024, 6, 15⟩ ⟨2024, 6, 15⟩ ⟨"Ann", "17.06.2024"⟩
    rfl (by rfl) (by rfl) (by rfl)

/-- C9: a stored birthday of February 29 (of a leap year) makes the whole
query raise when today's year is not a leap year: `replace(year=today.year)`
fails for that record, the exception escapes `get_upcoming_birthdays`, and
no result list is produced for the book. -/
theorem feb29_query_error (today : PyDate) (b : Book) (name : String)
    (r : Record) (s : String) (bd : PyDate) (hm : (name, r) ∈ b)
    (hb : r.birthday = some s) (hs : pyStrptime s = some bd)
    (hmo : bd.m = 2) (hda : bd.d = 29) (hl : isLeap today.y = false) :
    ∃ msg, getUpcomingBirthdays today b = .error msg := by
  have hrep : replaceYear today.y bd = .error "day is out of range for month" := by
    unfold replaceYear
    rw [if_neg]
    rintro ⟨-, -, -, -, -, h6⟩
    rw [hda, hmo] at h6
    simp [daysInMonth, hl] at h6
  have hpr : processRecord today r = .error "day is out of range for month" := by
    unfold processRecord
    rw [hb]
    simp only [hs, computeCandidate, Bind.bind, Except.bind, hrep]
  exact runUpcoming_error_of_mem (List.mem_map.mpr ⟨(name, r), hm, rfl⟩) hpr

theorem feb29_query_error_witness :
    ∃ msg, getUpcomingBirthdays ⟨2025, 6, 1⟩
        [("Leap", ⟨"Leap", [], "", some "29.02.2020"⟩)] = .error msg :=
  feb29_query_error ⟨2025, 6, 1⟩ [("Leap", ⟨"Leap", [], "", some "29.02.2020"⟩)]
    "Leap" ⟨"Leap", [], "", some "29.02.2020"⟩ "29.02.2020" ⟨2020, 2, 29⟩
    (by simp) rfl (by rfl) rfl rfl rfl

/-!
## Claim theorems: the command layer
-/

/-- C6 counterexample: `add` with one argument does not produce the generic
provide-all-required-arguments message: tuple unpacking raises `ValueError`,
which the decorator's `ValueError` branch returns verbatim, so the user sees
Python's unpack message instead. -/
theorem missing_args_unpack_cex :
    (addContact ["John"] []).1
      = "not enough values to unpack (expected at least 2, got 1)" ∧
    (addContact ["John"] []).1 ≠ genericArgsMsg := by
  exact ⟨rfl, by decide⟩

/-- C6 (amended): `add`, `change` and `add-birthday` with too few arguments
return the text of Python's unpacking `ValueError` (via the same decorator
branch that returns validation messages), not the generic
provide-all-required-arguments message; the generic message is produced only
by handlers that index into `args` (e.g. `phone` with no arguments, whose
`args[0]` raises `IndexError`). -/
theorem missing_args_messages (args : List String) (b : Book) :
    (args.length < 2 →
      (addContact args b).1 = unpackAtLeastMsg 2 args.length ∧
      (addContact args b).1 ≠ genericArgsMsg) ∧
    (args.length < 3 →
      (changeContact args b).1 = unpackExactMsg 3 args.length ∧
      (changeContact args b).1 ≠ genericArgsMsg) ∧
    (args.length < 2 →
      (addBirthdayCmd args b).1 = unpackExactMsg 2 args.length ∧
      (addBirthdayCmd args b).1 ≠ genericArgsMsg) ∧
    showPhone [] b = genericArgsMsg := by
  rcases args with _ | ⟨a1, _ | ⟨a2, _ | ⟨a3, t⟩⟩⟩
  · refine ⟨fun _ => ⟨rfl, ?_⟩, fun _ => ⟨rfl, ?_⟩, fun _ => ⟨rfl, ?_⟩, rfl⟩
    · rw [show (addContact ([] : List String) b).1
          = unpackAtLeastMsg 2 0 from rfl]
      decide
    · rw [show (changeContact ([] : List String) b).1
          = unpackExactMsg 3 0 from rfl]
      decide
    · rw [show (addBirthdayCmd ([] : List String) b).1
          = unpackExactMsg 2 0 from rfl]
      decide
  · refine ⟨fun _ => ⟨rfl, ?_⟩, fun _ => ⟨rfl, ?_⟩, fun _ => ⟨rfl, ?_⟩, rfl⟩
    · rw [show (addContact [a1] b).1 = unpackAtLeastMsg 2 1 from rfl]
      decide
    · rw [show (changeContact [a1] b).1 = unpackExactMsg 3 1 from rfl]
      decide
    · rw [show (addBirthdayCmd [a1] b).1 = unpackExactMsg 2 1 from rfl]
      decide
  · refine ⟨fun h => absurd h (by simp), fun _ => ⟨rfl, ?_⟩,
      fun h => absurd h (by simp), rfl⟩
    rw [show (changeContact [a1, a2] b).1 = unpackExactMsg 3 2 from rfl]
    decide
  · refine ⟨fun h => absurd h ?_, fun h => absurd h ?_,
      fun h => absurd h ?_, rfl⟩ <;>
      · simp only [List.length_cons, not_lt]
        omega

theorem missing_args_messages_witness :
    ((["John"] : List String).length < 2 →
      (addContact ["John"] []).1 = unpackAtLeastMsg 2 ["John"].length ∧
      (addContact ["John"] []).1 ≠ genericArgsMsg) ∧
    ((["John"] : List String).length < 3 →
      (changeContact ["John"] []).1 = unpackExactMsg 3 ["John"].length ∧
      (changeContact ["John"] []).1 ≠ genericArgsMsg) ∧
    ((["John"] : List String).length < 2 →
      (addBirthdayCmd ["John"] []).1 = unpackExactMsg 2 ["John"].length ∧
      (addBirthdayCmd ["John"] []).1 ≠ genericArgsMsg) ∧
    showPhone [] [] = genericArgsMsg :=
  missing_args_messages ["John"] []

/-- C10: `add` on an existing name merges instead of replacing: the (valid)
phone is appended to the record's phones, the email is overwritten only when
a non-empty email argument is present, name and birthday and the earlier
phones are untouched, and the message is the updated-contact one. -/
theorem add_existing_contact_merges (b : Book) (n p : String)
    (rest : List String) (r : Record) (hf : dictFind b n = some r)
    (hp : validatePhone p = .ok p) :
    addContact (n :: p :: rest) b =
      ("Contact updated.",
        dictInsert b n
          { r with
              phones := r.phones ++ [p],
              email := if rest.headD "" ≠ "" then rest.headD "" else r.email }) := by
  have hpe : p ≠ "" := by
    intro h0
    rw [h0] at hp
    exact Except.noConfusion
      (show Except.error "Phone number must be 10 digits."
          = Except.ok "" from hp)
  simp only [addContact, hf, addPhone, hp, Except.map]
  split_ifs with h1 <;> rfl

theorem add_existing_contact_merges_witness :
    addContact ["John", "2222222222", "new@x"]
        [("John", ⟨"John", ["1111111111"], "", some "01.01.2000"⟩)] =
      ("Contact updated.",
        [("John", ⟨"John", ["1111111111", "2222222222"], "new@x",
          some "01.01.2000"⟩)]) :=
  add_existing_contact_merges
    [("John", ⟨"John", ["1111111111"], "", some "01.01.2000"⟩)]
    "John" "2222222222" ["new@x"]
    ⟨"John", ["1111111111"], "", some "01.01.2000"⟩ (by rfl) (by rfl)

/-!
## Lemmas about digits, tokens and `splitDots`
-/

theorem decDigitVal_le9 {c : Char} {b : Nat} (h : decDigitVal c = some b) :
    b ≤ 9 := by
  have haux : ∀ L : List Nat,
      L.findSome? (fun s =>
        if s ≤ c.toNat ∧ c.toNat ≤ s + 9 then some (c.toNat - s) else none)
        = some b → b ≤ 9 := by
    intro L
    induction L with
    | nil => intro h0; cases h0
    | cons s t ih =>
      intro h0
      rw [List.findSome?_cons] at h0
      split at h0
      · rename_i v hv
        cases h0
        split at hv
        · rename_i hcond
          cases hv
          omega
        · cases hv
      · exact ih h0
  exact haux ndRangeStarts h

end BotSpec
